import Mathlib

/-!
Shallow embedding of the Mergington High School activity-signup service
(`src/app.py`).  The in-memory store (a Python `dict` from activity name to
activity record) is modelled as an insertion-ordered association list; the
backing JSON file is modelled by `FileState`: it is absent, or exists but
does not parse (`corrupt`), or parses to a mapping (`parsed`).  JSON text
serialization by the external `json` library is abstracted to the mapping
level: writing a mapping and re-parsing the written text yields the same
mapping, which is the library's contract for the data model at hand (string
fields, integer capacity, list-of-string participants).  HTTP handlers
become functions from the system state to `Except HTTPError`, with
`HTTPException(status_code, detail)` embedded as an `HTTPError` value.
-/

namespace MHS

/-- An activity record: the value type of the store mapping
(`description`, `schedule`, `max_participants`, `participants`). -/
structure Activity where
  description : String
  schedule : String
  max_participants : Int
  participants : List String
deriving Repr, DecidableEq

/-- The in-memory store: Python's insertion-ordered `dict` from activity
name to record, as an association list. -/
abbrev Store := List (String × Activity)

/-- State of the backing file `data/activities.json`: missing, existing but
failing `json.load`, or parsing to a mapping. -/
inductive FileState where
  | absent
  | corrupt
  | parsed (data : Store)
deriving Repr, DecidableEq

/-- The whole mutable world the handlers touch: the module-level
`activities` dict plus the backing file. -/
structure SystemState where
  activities : Store
  file : FileState
deriving Repr, DecidableEq

/-- The embedded `fastapi.HTTPException`. -/
structure HTTPError where
  status_code : Nat
  detail : String
deriving Repr, DecidableEq

/-- `_default_activities()` from `app.py`: the fixed seed data. -/
def _default_activities : Store :=
  [ ("Chess Club",
      { description := "Learn strategies and compete in chess tournaments"
        schedule := "Fridays, 3:30 PM - 5:00 PM"
        max_participants := 12
        participants := ["michael@mergington.edu", "daniel@mergington.edu"] }),
    ("Programming Class",
      { description := "Learn programming fundamentals and build software projects"
        schedule := "Tuesdays and Thursdays, 3:30 PM - 4:30 PM"
        max_participants := 20
        participants := ["emma@mergington.edu", "sophia@mergington.edu"] }),
    ("Gym Class",
      { description := "Physical education and sports activities"
        schedule := "Mondays, Wednesdays, Fridays, 2:00 PM - 3:00 PM"
        max_participants := 30
        participants := ["john@mergington.edu", "olivia@mergington.edu"] }),
    ("Soccer Team",
      { description := "Join the school soccer team and compete in matches"
        schedule := "Tuesdays and Thursdays, 4:00 PM - 5:30 PM"
        max_participants := 22
        participants := ["liam@mergington.edu", "noah@mergington.edu"] }),
    ("Basketball Team",
      { description := "Practice and play basketball with the school team"
        schedule := "Wednesdays and Fridays, 3:30 PM - 5:00 PM"
        max_participants := 15
        participants := ["ava@mergington.edu", "mia@mergington.edu"] }),
    ("Art Club",
      { description := "Explore your creativity through painting and drawing"
        schedule := "Thursdays, 3:30 PM - 5:00 PM"
        max_participants := 15
        participants := ["amelia@mergington.edu", "harper@mergington.edu"] }),
    ("Drama Club",
      { description := "Act, direct, and produce plays and performances"
        schedule := "Mondays and Wednesdays, 4:00 PM - 5:30 PM"
        max_participants := 20
        participants := ["ella@mergington.edu", "scarlett@mergington.edu"] }),
    ("Math Club",
      { description := "Solve challenging problems and participate in math competitions"
        schedule := "Tuesdays, 3:30 PM - 4:30 PM"
        max_participants := 10
        participants := ["james@mergington.edu", "benjamin@mergington.edu"] }),
    ("Debate Team",
      { description := "Develop public speaking and argumentation skills"
        schedule := "Fridays, 4:00 PM - 5:30 PM"
        max_participants := 12
        participants := ["charlotte@mergington.edu", "henry@mergington.edu"] }) ]

/-- `save_activities(data)` seen through its effect on the backing file:
the whole mapping is serialized and atomically replaces the file, so
afterwards the file parses to exactly `data`.  (The temp-file mechanics of
the same function are modelled by `save_activities_run` below.) -/
def save_activities (data : Store) : FileState :=
  FileState.parsed data

/-- `load_activities()` from `app.py`: if the file does not exist, seed the
defaults, persist them and return them; if it exists, return what it parses
to; on any parse failure, fall back to the defaults and persist them.
Returns the resulting mapping together with the file state it leaves. -/
def load_activities : FileState → Store × FileState
  | FileState.absent => (_default_activities, save_activities _default_activities)
  | FileState.corrupt => (_default_activities, save_activities _default_activities)
  | FileState.parsed d => (d, FileState.parsed d)

/-- Replacing the value bound to `name` in the dict (Python mutates the
record in place, leaving key order untouched). -/
def updateActivity : Store → String → Activity → Store
  | [], _, _ => []
  | (k, v) :: rest, name, act =>
      if k = name then (k, act) :: rest
      else (k, v) :: updateActivity rest name act

/-- `signup_for_activity(activity_name, email)` from `app.py`. -/
def signup_for_activity (st : SystemState) (activity_name email : String) :
    Except HTTPError (SystemState × String) :=
  match List.lookup activity_name st.activities with
  | none => Except.error { status_code := 404, detail := "Activity not found" }
  | some activity =>
      if email ∈ activity.participants then
        Except.error { status_code := 400, detail := "Student is already signed up" }
      else
        let acts := updateActivity st.activities activity_name
          { activity with participants := activity.participants ++ [email] }
        Except.ok ({ activities := acts, file := save_activities acts },
          "Signed up " ++ email ++ " for " ++ activity_name)

/-- `unregister_from_activity(activity_name, email)` from `app.py`
(`list.remove` drops the first matching entry, i.e. `List.erase`). -/
def unregister_from_activity (st : SystemState) (activity_name email : String) :
    Except HTTPError (SystemState × String) :=
  match List.lookup activity_name st.activities with
  | none => Except.error { status_code := 404, detail := "Activity not found" }
  | some activity =>
      if email ∈ activity.participants then
        let acts := updateActivity st.activities activity_name
          { activity with participants := activity.participants.erase email }
        Except.ok ({ activities := acts, file := save_activities acts },
          "Unregistered " ++ email ++ " from " ++ activity_name)
      else
        Except.error { status_code := 400, detail := "Student is not signed up for this activity" }

/-- `reload_activities()` from `app.py`: replace the in-memory mapping with
a fresh load and report `len(activities)`. -/
def reload_activities (st : SystemState) : SystemState × Nat :=
  let r := load_activities st.file
  ({ activities := r.1, file := r.2 }, r.1.length)

/-- Directory holding both the canonical file and the temp file
(`tempfile.mkstemp(dir=str(DATA_DIR))`, `ACTIVITIES_FILE = DATA_DIR / "activities.json"`). -/
def DATA_DIR : String := "data"

/-- Observable outcome of one run of `save_activities`' temp-file dance. -/
structure SaveRun where
  ok : Bool
  tmpDir : String
  targetDir : String
  tmpCreated : Bool
  tmpExistsAtEnd : Bool
  cleanupRemoveRan : Bool
  fileAfter : FileState
deriving Repr, DecidableEq

/-- `save_activities(data)` with failure injection for the two fallible
steps of the `try` body: `json.dump` into the temp file and `os.replace`.
`mkstemp` creates the temp file in `DATA_DIR`; if the dump raises, the temp
file still exists and the target is untouched; if `os.replace` raises, the
temp file still exists and the target is untouched (replace is atomic); if
it succeeds, the temp file has been renamed over the target.  The `finally`
block removes the temp file exactly when it still exists. -/
def save_activities_run (data : Store) (fileBefore : FileState)
    (dumpFails replaceFails : Bool) : SaveRun :=
  let afterTry : Bool × Bool × FileState :=
    if dumpFails then (false, true, fileBefore)
    else if replaceFails then (false, true, fileBefore)
    else (true, false, FileState.parsed data)
  let tmpExists := afterTry.2.1
  { ok := afterTry.1
    tmpDir := DATA_DIR
    targetDir := DATA_DIR
    tmpCreated := true
    tmpExistsAtEnd := if tmpExists then false else tmpExists
    cleanupRemoveRan := tmpExists
    fileAfter := afterTry.2.2 }

/-- The in-memory mapping after a signup request, whatever its outcome:
errors raise before any mutation, so they leave the state unchanged. -/
def signupState (st : SystemState) (A E : String) : SystemState :=
  match signup_for_activity st A E with
  | Except.ok r => r.1
  | Except.error _ => st

/-- The in-memory mapping after an unregister request, whatever its
outcome. -/
def unregisterState (st : SystemState) (A E : String) : SystemState :=
  match unregister_from_activity st A E with
  | Except.ok r => r.1
  | Except.error _ => st

/-- Frame property relating the states before and after a successful
mutation of activity `A`: every other key is untouched, and `A` keeps its
`description`, `schedule` and `max_participants`. -/
def framePreserved (st st' : SystemState) (A : String) : Prop :=
  (∀ B, B ≠ A → List.lookup B st'.activities = List.lookup B st.activities) ∧
  ∃ act act', List.lookup A st.activities = some act ∧
    List.lookup A st'.activities = some act' ∧
    act'.description = act.description ∧
    act'.schedule = act.schedule ∧
    act'.max_participants = act.max_participants

/-- Every activity's participants list is duplicate-free. -/
def NodupStore (s : Store) : Prop :=
  ∀ p ∈ s, (Prod.snd p).participants.Nodup

/-- A small concrete activity used to instantiate the theorems below. -/
def actA : Activity :=
  { description := "d", schedule := "s", max_participants := 2,
    participants := ["a@x", "b@x"] }

/-- A second concrete activity for the test store. -/
def actB : Activity :=
  { description := "e", schedule := "t", max_participants := 3,
    participants := ["c@x"] }

/-- A concrete two-activity store. -/
def store0 : Store := [("Chess", actA), ("Math", actB)]

/-- A concrete state whose file agrees with its in-memory mapping. -/
def st0 : SystemState := { activities := store0, file := FileState.parsed store0 }

/-- `store0` after signing `"c@x"` up for `"Chess"`. -/
def store1 : Store :=
  [("Chess", { actA with participants := actA.participants ++ ["c@x"] }),
   ("Math", actB)]

/-- The state produced by that signup. -/
def st1 : SystemState := { activities := store1, file := FileState.parsed store1 }

theorem lookup_updateActivity_self (s : Store) (name : String) (act : Activity)
    (h : (List.lookup name s).isSome) :
    List.lookup name (updateActivity s name act) = some act := by
  induction s with
  | nil => simp [List.lookup] at h
  | cons p rest ih =>
      obtain ⟨k, v⟩ := p
      by_cases hk : k = name
      · subst hk
        simp [updateActivity, List.lookup_cons]
      · have hne : (name == k) = false := by
          simp only [beq_eq_false_iff_ne, ne_eq]
          exact fun hnk => hk hnk.symm
        simp only [updateActivity, if_neg hk, List.lookup_cons, hne] at h ⊢
        exact ih h

theorem lookup_updateActivity_of_ne (s : Store) (k name : String) (act : Activity)
    (h : k ≠ name) :
    List.lookup k (updateActivity s name act) = List.lookup k s := by
  induction s with
  | nil => rfl
  | cons p rest ih =>
      obtain ⟨k', v⟩ := p
      by_cases hk : k' = name
      · subst hk
        have hne : (k == k') = false := by
          simp only [beq_eq_false_iff_ne, ne_eq]
          exact h
        simp [updateActivity, List.lookup_cons, hne]
      · simp only [updateActivity, if_neg hk, List.lookup_cons]
        cases hkk : (k == k') <;> simp [ih]

theorem mem_updateActivity {s : Store} {name : String} {act : Activity} :
    ∀ p ∈ updateActivity s name act, p ∈ s ∨ p = (name, act) := by
  induction s with
  | nil => intro p hp; simp [updateActivity] at hp
  | cons q rest ih =>
      obtain ⟨k, v⟩ := q
      intro p hp
      by_cases hk : k = name
      · subst hk
        simp only [updateActivity, if_pos rfl] at hp
        rcases List.mem_cons.mp hp with h | h
        · right; exact h
        · left; exact List.mem_cons_of_mem _ h
      · simp only [updateActivity, if_neg hk] at hp
        rcases List.mem_cons.mp hp with h | h
        · left; rw [h]; exact List.mem_cons_self _ _
        · rcases ih p h with h' | h'
          · left; exact List.mem_cons_of_mem _ h'
          · right; exact h'

theorem signup_notFound {st : SystemState} {A E : String}
    (h : List.lookup A st.activities = none) :
    signup_for_activity st A E =
      Except.error { status_code := 404, detail := "Activity not found" } := by
  simp [signup_for_activity, h]

theorem signup_conflict {st : SystemState} {A E : String} {act : Activity}
    (h : List.lookup A st.activities = some act) (hm : E ∈ act.participants) :
    signup_for_activity st A E =
      Except.error { status_code := 400, detail := "Student is already signed up" } := by
  simp [signup_for_activity, h, hm]

theorem signup_ok {st : SystemState} {A E : String} {act : Activity}
    (h : List.lookup A st.activities = some act) (hm : E ∉ act.participants) :
    signup_for_activity st A E =
      Except.ok
        ({ activities := updateActivity st.activities A
              { act with participants := act.participants ++ [E] },
           file := FileState.parsed (updateActivity st.activities A
              { act with participants := act.participants ++ [E] }) },
         "Signed up " ++ E ++ " for " ++ A) := by
  simp [signup_for_activity, h, hm, save_activities]

theorem unregister_notFound {st : SystemState} {A E : String}
    (h : List.lookup A st.activities = none) :
    unregister_from_activity st A E =
      Except.error { status_code := 404, detail := "Activity not found" } := by
  simp [unregister_from_activity, h]

theorem unregister_conflict {st : SystemState} {A E : String} {act : Activity}
    (h : List.lookup A st.activities = some act) (hm : E ∉ act.participants) :
    unregister_from_activity st A E =
      Except.error { status_code := 400, detail := "Student is not signed up for this activity" } := by
  simp [unregister_from_activity, h, hm]

theorem unregister_ok {st : SystemState} {A E : String} {act : Activity}
    (h : List.lookup A st.activities = some act) (hm : E ∈ act.participants) :
    unregister_from_activity st A E =
      Except.ok
        ({ activities := updateActivity st.activities A
              { act with participants := act.participants.erase E },
           file := FileState.parsed (updateActivity st.activities A
              { act with participants := act.participants.erase E }) },
         "Unregistered " ++ E ++ " from " ++ A) := by
  simp [unregister_from_activity, h, hm, save_activities]

/-- C1: signup fails with NotFound (404) iff the activity name is not a key
of the store; fails with Conflict (400) iff the activity is present and the
email already appears in its participants list; otherwise it appends the
email at the end of the participants list, persists the whole store, and
returns a confirmation message. -/
theorem signup_spec (st : SystemState) (A E : String) :
    ((∃ e, signup_for_activity st A E = Except.error e ∧ e.status_code = 404) ↔
        List.lookup A st.activities = none) ∧
    ((∃ e, signup_for_activity st A E = Except.error e ∧ e.status_code = 400) ↔
        ∃ act, List.lookup A st.activities = some act ∧ E ∈ act.participants) ∧
    (∀ act, List.lookup A st.activities = some act → E ∉ act.participants →
        ∃ st', signup_for_activity st A E =
            Except.ok (st', "Signed up " ++ E ++ " for " ++ A) ∧
          List.lookup A st'.activities =
            some { act with participants := act.participants ++ [E] } ∧
          st'.file = FileState.parsed st'.activities) := by
  refine ⟨⟨?_, ?_⟩, ⟨?_, ?_⟩, ?_⟩
  · rintro ⟨e, he, hs⟩
    cases hl : List.lookup A st.activities with
    | none => rfl
    | some act =>
        by_cases hm : E ∈ act.participants
        · rw [signup_conflict hl hm] at he
          cases he
          simp at hs
        · rw [signup_ok hl hm] at he
          cases he
  · intro hl
    exact ⟨_, signup_notFound hl, rfl⟩
  · rintro ⟨e, he, hs⟩
    cases hl : List.lookup A st.activities with
    | none =>
        rw [signup_notFound hl] at he
        cases he
        simp at hs
    | some act =>
        by_cases hm : E ∈ act.participants
        · exact ⟨act, rfl, hm⟩
        · rw [signup_ok hl hm] at he
          cases he
  · rintro ⟨act, hl, hm⟩
    exact ⟨_, signup_conflict hl hm, rfl⟩
  · intro act hl hm
    refine ⟨_, signup_ok hl hm, ?_, rfl⟩
    exact lookup_updateActivity_self _ _ _ (by rw [hl]; rfl)

/-- C1 witness: the success branch of `signup_spec` at a concrete state. -/
theorem signup_spec_witness :
    ∃ st', signup_for_activity st0 "Chess" "c@x" =
        Except.ok (st', "Signed up " ++ "c@x" ++ " for " ++ "Chess") ∧
      List.lookup "Chess" st'.activities =
        some { actA with participants := actA.participants ++ ["c@x"] } ∧
      st'.file = FileState.parsed st'.activities :=
  (signup_spec st0 "Chess" "c@x").2.2 actA (by decide) (by decide)

/-- C2: unregister fails with NotFound (404) iff the activity name is not a
key of the store; fails with Conflict (400) iff the activity is present and
the email is not in its participants list (leaving the state untouched,
since errors carry no state change); otherwise it removes exactly the first
occurrence of the email from the participants list and persists the store. -/
theorem unregister_spec (st : SystemState) (A E : String) :
    ((∃ e, unregister_from_activity st A E = Except.error e ∧ e.status_code = 404) ↔
        List.lookup A st.activities = none) ∧
    ((∃ e, unregister_from_activity st A E = Except.error e ∧ e.status_code = 400) ↔
        ∃ act, List.lookup A st.activities = some act ∧ E ∉ act.participants) ∧
    (∀ act, List.lookup A st.activities = some act → E ∈ act.participants →
        ∃ st', unregister_from_activity st A E =
            Except.ok (st', "Unregistered " ++ E ++ " from " ++ A) ∧
          List.lookup A st'.activities =
            some { act with participants := act.participants.erase E } ∧
          (∃ l₁ l₂, E ∉ l₁ ∧ act.participants = l₁ ++ E :: l₂ ∧
            act.participants.erase E = l₁ ++ l₂) ∧
          st'.file = FileState.parsed st'.activities) := by
  refine ⟨⟨?_, ?_⟩, ⟨?_, ?_⟩, ?_⟩
  · rintro ⟨e, he, hs⟩
    cases hl : List.lookup A st.activities with
    | none => rfl
    | some act =>
        by_cases hm : E ∈ act.participants
        · rw [unregister_ok hl hm] at he
          cases he
        · rw [unregister_conflict hl hm] at he
          cases he
          simp at hs
  · intro hl
    exact ⟨_, unregister_notFound hl, rfl⟩
  · rintro ⟨e, he, hs⟩
    cases hl : List.lookup A st.activities with
    | none =>
        rw [unregister_notFound hl] at he
        cases he
        simp at hs
    | some act =>
        by_cases hm : E ∈ act.participants
        · rw [unregister_ok hl hm] at he
          cases he
        · exact ⟨act, rfl, hm⟩
  · rintro ⟨act, hl, hm⟩
    exact ⟨_, unregister_conflict hl hm, rfl⟩
  · intro act hl hm
    refine ⟨_, unregister_ok hl hm, ?_, ?_, rfl⟩
    · exact lookup_updateActivity_self _ _ _ (by rw [hl]; rfl)
    · obtain ⟨l₁, l₂, hnm, heq, herase⟩ := List.exists_erase_eq hm
      exact ⟨l₁, l₂, hnm, heq, herase⟩

/-- C2 witness: the success branch of `unregister_spec` at a concrete state. -/
theorem unregister_spec_witness :
    ∃ st', unregister_from_activity st0 "Chess" "a@x" =
        Except.ok (st', "Unregistered " ++ "a@x" ++ " from " ++ "Chess") ∧
      List.lookup "Chess" st'.activities =
        some { actA with participants := actA.participants.erase "a@x" } ∧
      (∃ l₁ l₂, "a@x" ∉ l₁ ∧ actA.participants = l₁ ++ "a@x" :: l₂ ∧
        actA.participants.erase "a@x" = l₁ ++ l₂) ∧
      st'.file = FileState.parsed st'.activities :=
  (unregister_spec st0 "Chess" "a@x").2.2 actA (by decide) (by decide)

theorem mem_of_lookup_eq_some {s : Store} {k : String} {v : Activity}
    (h : List.lookup k s = some v) : (k, v) ∈ s := by
  induction s with
  | nil => simp [List.lookup] at h
  | cons p rest ih =>
      obtain ⟨k', v'⟩ := p
      rw [List.lookup_cons] at h
      cases hk : (k == k') with
      | true =>
          rw [hk] at h
          simp only at h
          have hk' : k = k' := by
            have := hk
            simpa using this
          cases h
          rw [hk']
          exact List.mem_cons_self _ _
      | false =>
          rw [hk] at h
          simp only at h
          exact List.mem_cons_of_mem _ (ih h)

/-- C3: the loader never fails outward; on a missing or unparsable file it
regenerates the fixed default set of 9 activities (Chess Club having 2
participants), persists it, and returns it; on a parsable file it returns
exactly the parsed mapping. -/
theorem load_activities_spec (f : FileState) :
    ((f = FileState.absent ∨ f = FileState.corrupt) →
        load_activities f =
          (_default_activities, FileState.parsed _default_activities) ∧
        _default_activities.length = 9 ∧
        (∃ act, List.lookup "Chess Club" _default_activities = some act ∧
          act.participants.length = 2)) ∧
    (∀ d, f = FileState.parsed d → load_activities f = (d, FileState.parsed d)) := by
  constructor
  · rintro (rfl | rfl) <;> exact ⟨rfl, rfl, ⟨_, rfl, rfl⟩⟩
  · rintro d rfl
    rfl

/-- C3 witness: loading over a corrupt file restores the defaults. -/
theorem load_activities_spec_witness :
    load_activities FileState.corrupt =
      (_default_activities, FileState.parsed _default_activities) ∧
    _default_activities.length = 9 ∧
    (∃ act, List.lookup "Chess Club" _default_activities = some act ∧
      act.participants.length = 2) :=
  (load_activities_spec FileState.corrupt).1 (Or.inr rfl)

/-- C4: the saver writes the temp file in the same directory as the target;
the file is only ever observed as its old or its new full content, never
partial; on any failure after the temp file exists (dump or replace) the
cleanup removes it; after a successful replace the temp file is gone and no
cleanup removal runs. -/
theorem save_activities_run_spec (data : Store) (fb : FileState) (df rf : Bool) :
    (save_activities_run data fb df rf).tmpDir =
      (save_activities_run data fb df rf).targetDir ∧
    ((save_activities_run data fb df rf).fileAfter = fb ∨
      (save_activities_run data fb df rf).fileAfter = FileState.parsed data) ∧
    ((save_activities_run data fb df rf).ok = false →
      (save_activities_run data fb df rf).cleanupRemoveRan = true ∧
      (save_activities_run data fb df rf).tmpExistsAtEnd = false ∧
      (save_activities_run data fb df rf).fileAfter = fb) ∧
    ((save_activities_run data fb df rf).ok = true →
      (save_activities_run data fb df rf).fileAfter = FileState.parsed data ∧
      (save_activities_run data fb df rf).tmpExistsAtEnd = false ∧
      (save_activities_run data fb df rf).cleanupRemoveRan = false) := by
  cases df <;> cases rf <;> simp [save_activities_run]

/-- C4 witness: a failing dump leads to a cleaned-up temp file and an
untouched target; a clean run leaves no temp file and runs no cleanup. -/
theorem save_activities_run_spec_witness :
    ((save_activities_run store0 FileState.absent true false).cleanupRemoveRan = true ∧
      (save_activities_run store0 FileState.absent true false).tmpExistsAtEnd = false ∧
      (save_activities_run store0 FileState.absent true false).fileAfter = FileState.absent) ∧
    ((save_activities_run store0 FileState.absent false false).fileAfter =
        FileState.parsed store0 ∧
      (save_activities_run store0 FileState.absent false false).tmpExistsAtEnd = false ∧
      (save_activities_run store0 FileState.absent false false).cleanupRemoveRan = false) :=
  ⟨(save_activities_run_spec store0 FileState.absent true false).2.2.1 rfl,
   (save_activities_run_spec store0 FileState.absent false false).2.2.2 rfl⟩

/-- C5: saving any mapping of the data model and then loading returns the
identical mapping (and leaves the file holding exactly that mapping). -/
theorem save_load_roundtrip (data : Store) :
    load_activities (save_activities data) = (data, save_activities data) := rfl

/-- C6: from a state where `A` exists and `E` is not yet registered, one
signup succeeds and leaves `E` exactly once in `A`'s participants with the
count up by one; an immediately repeated signup yields Conflict (400). -/
theorem signup_twice_spec (st : SystemState) (A E : String) (act : Activity)
    (hl : List.lookup A st.activities = some act) (hm : E ∉ act.participants) :
    ∃ st', signup_for_activity st A E =
        Except.ok (st', "Signed up " ++ E ++ " for " ++ A) ∧
      (∃ act', List.lookup A st'.activities = some act' ∧
        act'.participants.count E = 1 ∧
        act'.participants.length = act.participants.length + 1) ∧
      signup_for_activity st' A E =
        Except.error { status_code := 400, detail := "Student is already signed up" } := by
  refine ⟨_, signup_ok hl hm, ?_, ?_⟩
  · refine ⟨_, lookup_updateActivity_self _ _ _ (by rw [hl]; rfl), ?_, ?_⟩
    · rw [List.count_append, List.count_eq_zero.mpr hm]
      simp [List.count_singleton]
    · simp
  · exact signup_conflict (lookup_updateActivity_self _ _ _ (by rw [hl]; rfl))
      (by simp)

/-- C6 witness: the double-signup behaviour at a concrete state. -/
theorem signup_twice_spec_witness :
    ∃ st', signup_for_activity st0 "Chess" "c@x" =
        Except.ok (st', "Signed up " ++ "c@x" ++ " for " ++ "Chess") ∧
      (∃ act', List.lookup "Chess" st'.activities = some act' ∧
        act'.participants.count "c@x" = 1 ∧
        act'.participants.length = actA.participants.length + 1) ∧
      signup_for_activity st' "Chess" "c@x" =
        Except.error { status_code := 400, detail := "Student is already signed up" } :=
  signup_twice_spec st0 "Chess" "c@x" actA (by decide) (by decide)

/-- C7: if the backing file holds exactly the current in-memory mapping,
reloading leaves the whole state unchanged and reports the number of
activities in the reloaded mapping. -/
theorem reload_idempotent (st : SystemState)
    (h : st.file = FileState.parsed st.activities) :
    reload_activities st = (st, st.activities.length) := by
  cases st with
  | mk acts f =>
      simp only at h
      subst h
      rfl

/-- C7 witness: reloading the concrete in-sync state is the identity. -/
theorem reload_idempotent_witness :
    reload_activities st0 = (st0, st0.activities.length) :=
  reload_idempotent st0 rfl

/-- C8: signup performs no capacity check: with `A` present and `E` not yet
registered it succeeds even when the participants list is already at or
over `max_participants`. -/
theorem signup_ignores_capacity (st : SystemState) (A E : String) (act : Activity)
    (hl : List.lookup A st.activities = some act) (hm : E ∉ act.participants)
    (_hfull : act.max_participants ≤ (act.participants.length : Int)) :
    ∃ st' msg, signup_for_activity st A E = Except.ok (st', msg) :=
  ⟨_, _, signup_ok hl hm⟩

/-- C8 witness: `actA` is at capacity (2 of 2) and signup still succeeds. -/
theorem signup_ignores_capacity_witness :
    ∃ st' msg, signup_for_activity st0 "Chess" "c@x" = Except.ok (st', msg) :=
  signup_ignores_capacity st0 "Chess" "c@x" actA (by decide) (by decide) (by decide)

/-- C9: a successful signup or unregister only changes the participants
list of the targeted activity: all other keys keep their full records, and
the targeted activity keeps its description, schedule and capacity. -/
theorem mutation_frame_spec (st : SystemState) (A E : String) :
    (∀ r, signup_for_activity st A E = Except.ok r → framePreserved st r.1 A) ∧
    (∀ r, unregister_from_activity st A E = Except.ok r → framePreserved st r.1 A) := by
  constructor
  · intro r he
    cases hl : List.lookup A st.activities with
    | none =>
        rw [signup_notFound hl] at he
        cases he
    | some act =>
        by_cases hm : E ∈ act.participants
        · rw [signup_conflict hl hm] at he
          cases he
        · rw [signup_ok hl hm] at he
          injection he with h
          subst h
          refine ⟨?_, act, _, hl,
            lookup_updateActivity_self _ _ _ (by rw [hl]; rfl), rfl, rfl, rfl⟩
          intro B hB
          exact lookup_updateActivity_of_ne _ _ _ _ hB
  · intro r he
    cases hl : List.lookup A st.activities with
    | none =>
        rw [unregister_notFound hl] at he
        cases he
    | some act =>
        by_cases hm : E ∈ act.participants
        · rw [unregister_ok hl hm] at he
          injection he with h
          subst h
          refine ⟨?_, act, _, hl,
            lookup_updateActivity_self _ _ _ (by rw [hl]; rfl), rfl, rfl, rfl⟩
          intro B hB
          exact lookup_updateActivity_of_ne _ _ _ _ hB
        · rw [unregister_conflict hl hm] at he
          cases he

/-- C9 witness: the frame property at the concrete signup from `st0`. -/
theorem mutation_frame_spec_witness : framePreserved st0 st1 "Chess" :=
  (mutation_frame_spec st0 "Chess" "c@x").1
    (st1, "Signed up " ++ "c@x" ++ " for " ++ "Chess") rfl

/-- C10: if no activity has a duplicate participant, then after any signup
or unregister request (successful or failing) no activity has a duplicate
participant. -/
theorem nodup_invariant (st : SystemState) (A E : String)
    (h : NodupStore st.activities) :
    NodupStore (signupState st A E).activities ∧
    NodupStore (unregisterState st A E).activities := by
  constructor
  · unfold signupState
    cases hl : List.lookup A st.activities with
    | none => rw [signup_notFound hl]; exact h
    | some act =>
        by_cases hm : E ∈ act.participants
        · rw [signup_conflict hl hm]
          exact h
        · rw [signup_ok hl hm]
          intro p hp
          rcases mem_updateActivity p hp with h' | h'
          · exact h p h'
          · rw [h']
            have hn : act.participants.Nodup := h (A, act) (mem_of_lookup_eq_some hl)
            refine List.nodup_append.mpr ⟨hn, List.nodup_singleton E, ?_⟩
            intro a ha hb
            rw [List.mem_singleton] at hb
            subst hb
            exact hm ha
  · unfold unregisterState
    cases hl : List.lookup A st.activities with
    | none => rw [unregister_notFound hl]; exact h
    | some act =>
        by_cases hm : E ∈ act.participants
        · rw [unregister_ok hl hm]
          intro p hp
          rcases mem_updateActivity p hp with h' | h'
          · exact h p h'
          · rw [h']
            have hn : act.participants.Nodup := h (A, act) (mem_of_lookup_eq_some hl)
            exact hn.erase E
        · rw [unregister_conflict hl hm]
          exact h

/-- C10 witness: the duplicate-freedom invariant at the concrete state. -/
theorem nodup_invariant_witness :
    NodupStore (signupState st0 "Chess" "c@x").activities ∧
    NodupStore (unregisterState st0 "Chess" "c@x").activities :=
  nodup_invariant st0 "Chess" "c@x"
    (show ∀ p ∈ store0, (Prod.snd p).participants.Nodup by decide)

end MHS
